import Mathlib

set_option maxHeartbeats 1000000
set_option linter.unusedVariables false

/-!
Verification development for the multi-chain support bot in `src/index.js`.

The embedding follows the source file closely:
- the address classifier (`validateEVMAddress`, `validateBTCAddress`,
  `validateXRPAddress`, `identifyAddressType`) translates the anchored
  regular expressions character-for-character, with strings viewed as
  their character lists;
- the `BlockchainScanner` probes (`getEVMWalletData`, `getBTCWalletData`,
  `getXRPWalletData`) are modelled with an explicit provider outcome:
  `none` stands for a transport/provider error caught by the probe's
  `try/catch`, `some d` for a successful provider response `d`.  JS
  floating-point values that the claims never inspect numerically are
  modelled as `Int`;
- `scanAddress` performs the same fan-out, with `Promise.all` join
  semantics modelled by all per-chain entries being present in the result;
- `sendToFormcarry` is modelled as a recursion over per-attempt HTTP
  outcomes, returning the list of retry delays it schedules and the final
  user-visible outcome;
- the Telegram `callback_query` and `message` handlers become pure
  transition functions on the per-chat session record (`userData[chatId]`),
  with deletion of the record modelled by an `Option Session` result.
  The `text` argument of `handleMessage` is the already-trimmed
  `msg.text?.trim()` value computed at the top of the source handler.
-/

/-- The classifier's verdict: `identifyAddressType` returns one of the
three chain families or `null` (here `none`). -/
inductive AddrType where
  | evm
  | btc
  | xrp
deriving DecidableEq

/-- Character class `[a-fA-F0-9]` of the EVM regex. -/
def isHexChar (c : Char) : Bool :=
  decide (('0' ≤ c ∧ c ≤ '9') ∨ ('a' ≤ c ∧ c ≤ 'f') ∨ ('A' ≤ c ∧ c ≤ 'F'))

/-- Character class `[a-zA-HJ-NP-Z0-9]` of the BTC regex: all lowercase
letters (including `l`), uppercase letters except `I` and `O`, and all
digits (including `0`). -/
def isBTCChar (c : Char) : Bool :=
  decide (('a' ≤ c ∧ c ≤ 'z') ∨ ('A' ≤ c ∧ c ≤ 'H') ∨ ('J' ≤ c ∧ c ≤ 'N') ∨
          ('P' ≤ c ∧ c ≤ 'Z') ∨ ('0' ≤ c ∧ c ≤ '9'))

/-- Character class `[1-9A-HJ-NP-Za-km-z]` of the XRP regex (true base58). -/
def isXRPChar (c : Char) : Bool :=
  decide (('1' ≤ c ∧ c ≤ '9') ∨ ('A' ≤ c ∧ c ≤ 'H') ∨ ('J' ≤ c ∧ c ≤ 'N') ∨
          ('P' ≤ c ∧ c ≤ 'Z') ∨ ('a' ≤ c ∧ c ≤ 'k') ∨ ('m' ≤ c ∧ c ≤ 'z'))

/-- `/^0x[a-fA-F0-9]{40}$/.test(address)` from `validateEVMAddress`. -/
def validateEVMAddress (s : String) : Bool :=
  match s.data with
  | c1 :: c2 :: rest =>
    if c1 = '0' ∧ c2 = 'x' then decide (rest.length = 40) && rest.all isHexChar
    else false
  | _ => false

/-- Body check `[a-zA-HJ-NP-Z0-9]{25,39}$` shared by both alternatives of
the BTC regex. -/
def btcBodyOk (body : List Char) : Bool :=
  decide (25 ≤ body.length) && decide (body.length ≤ 39) && body.all isBTCChar

/-- `/^(bc1|[13])[a-zA-HJ-NP-Z0-9]{25,39}$/.test(address)` from
`validateBTCAddress`.  A string starting with `b` can only match via the
`bc1` alternative, and one starting with `1` or `3` only via `[13]`, so
the anchored alternation is this case split. -/
def validateBTCAddress (s : String) : Bool :=
  match s.data with
  | [] => false
  | c :: rest =>
    if c = 'b' then
      match rest with
      | c2 :: c3 :: body => if c2 = 'c' ∧ c3 = '1' then btcBodyOk body else false
      | _ => false
    else if c = '1' ∨ c = '3' then btcBodyOk rest
    else false

/-- `/^r[1-9A-HJ-NP-Za-km-z]{25,34}$/.test(address)` from
`validateXRPAddress`. -/
def validateXRPAddress (s : String) : Bool :=
  match s.data with
  | [] => false
  | c :: rest =>
    if c = 'r' then
      decide (25 ≤ rest.length) && decide (rest.length ≤ 34) && rest.all isXRPChar
    else false

/-- `identifyAddressType`: first matching rule wins, `null` otherwise. -/
def identifyAddressType (address : String) : Option AddrType :=
  if validateEVMAddress address then some AddrType.evm
  else if validateBTCAddress address then some AddrType.btc
  else if validateXRPAddress address then some AddrType.xrp
  else none

/-- The three configured EVM networks of `BlockchainScanner.chains.evm`,
in object insertion order (`Object.entries` iterates them in this order). -/
inductive EvmChain where
  | eth
  | polygon
  | bsc
deriving DecidableEq

/-- `this.chains.evm[chain].name`. -/
def evmChainName : EvmChain → String
  | EvmChain.eth => "Ethereum"
  | EvmChain.polygon => "Polygon"
  | EvmChain.bsc => "Binance Smart Chain"

/-- `this.chains.evm[chain].symbol`. -/
def evmChainSymbol : EvmChain → String
  | EvmChain.eth => "ETH"
  | EvmChain.polygon => "MATIC"
  | EvmChain.bsc => "BNB"

/-- A successful Alchemy response for one EVM network: native balance and
the list of tokens held (`getTokensForOwner().tokens`). -/
structure EvmApiData where
  balance : Int
  tokens : List String
deriving DecidableEq

/-- A successful Blockstream response: `data.chain_stats`. -/
structure BtcApiStats where
  funded_txo_sum : Int
  spent_txo_sum : Int
  tx_count : Nat
deriving DecidableEq

/-- One entry of the Ripple balances list. -/
structure XrpBalanceEntry where
  currency : String
  value : Int
deriving DecidableEq

/-- A successful Ripple data-API response: balances list and optional
transaction count (the source reads `data.transaction_count || 0`). -/
structure XrpApiData where
  balances : List XrpBalanceEntry
  transaction_count : Option Nat
deriving DecidableEq

/-- The per-chain result object a probe returns.  On the failure path the
source's `catch` returns the bare object `{ success: false }`, so every
other field is absent (`none`). -/
structure ChainResult where
  success : Bool
  balance : Option Int := none
  tokenCount : Option Nat := none
  txCount : Option Nat := none
  name : Option String := none
  symbol : Option String := none
deriving DecidableEq

/-- `BlockchainScanner.getEVMWalletData(address, chain)`.  `outcome` is the
joint result of the two awaited Alchemy calls: `none` when they reject
(the `catch` branch), `some d` when both resolve. -/
def getEVMWalletData (address : String) (chain : EvmChain)
    (outcome : Option EvmApiData) : ChainResult :=
  match outcome with
  | none => { success := false }
  | some d =>
    { success := true
      balance := some d.balance
      tokenCount := some d.tokens.length
      name := some (evmChainName chain)
      symbol := some (evmChainSymbol chain) }

/-- `BlockchainScanner.getBTCWalletData(address)`:
`balance = funded_txo_sum - spent_txo_sum`. -/
def getBTCWalletData (address : String) (outcome : Option BtcApiStats) : ChainResult :=
  match outcome with
  | none => { success := false }
  | some d =>
    { success := true
      balance := some (d.funded_txo_sum - d.spent_txo_sum)
      txCount := some d.tx_count
      name := some "Bitcoin"
      symbol := some "BTC" }

/-- `BlockchainScanner.getXRPWalletData(address)`: the `XRP` entry of the
balances list, defaulting to `0` when absent. -/
def getXRPWalletData (address : String) (outcome : Option XrpApiData) : ChainResult :=
  match outcome with
  | none => { success := false }
  | some d =>
    let xrpBalance := d.balances.find? (fun b => b.currency = "XRP")
    let balance := match xrpBalance with
      | some b => b.value
      | none => 0
    { success := true
      balance := some balance
      txCount := some (d.transaction_count.getD 0)
      name := some "Ripple"
      symbol := some "XRP" }

/-- The provider outcomes of one whole scan: one slot per probe that
`scanAddress` may fan out to. -/
structure ScanOutcomes where
  eth : Option EvmApiData
  polygon : Option EvmApiData
  bsc : Option EvmApiData
  btc : Option BtcApiStats
  xrp : Option XrpApiData
deriving DecidableEq

/-- The `results` object assembled by `scanAddress`: the classifier's
verdict plus one keyed entry per probed chain. -/
structure ScanResults where
  type : AddrType
  perChain : List (String × ChainResult)
deriving DecidableEq

/-- The value `scanAddress` resolves with. -/
structure ScanReturn where
  success : Bool
  data : Option ScanResults := none
  error : Option String := none
deriving DecidableEq

/-- `BlockchainScanner.scanAddress(address)`: classify; on `null` fail fast
with `Invalid address format`; otherwise fan out (all three EVM networks
for an EVM address, the single matching probe for BTC/XRP), await all
probes, and resolve `{ success: true, data: results }`. -/
def scanAddress (o : ScanOutcomes) (address : String) : ScanReturn :=
  match identifyAddressType address with
  | none => { success := false, error := some "Invalid address format" }
  | some t =>
    let results : ScanResults :=
      match t with
      | AddrType.evm =>
        { type := t
          perChain :=
            [("eth", getEVMWalletData address EvmChain.eth o.eth),
             ("polygon", getEVMWalletData address EvmChain.polygon o.polygon),
             ("bsc", getEVMWalletData address EvmChain.bsc o.bsc)] }
      | AddrType.btc => { type := t, perChain := [("btc", getBTCWalletData address o.btc)] }
      | AddrType.xrp => { type := t, perChain := [("xrp", getXRPWalletData address o.xrp)] }
    { success := true, data := some results }

/-- Outcome of one `axios.post` attempt in `sendToFormcarry`:
a resolved response with status 200, a resolved response with another
status, a rejection carrying HTTP 429, or any other rejection. -/
inductive HttpOutcome where
  | ok200
  | okOther
  | err429
  | errOther
deriving DecidableEq

/-- What `sendToFormcarry` finally shows the user: the follow-up menu
(restart / import another wallet / contact support) on HTTP 200, or the
generic `Oops! Something went wrong` failure notice otherwise. -/
inductive RelayOutcome where
  | menuSent
  | failNotice
deriving DecidableEq

/-- `sendToFormcarry(bot, chatId, data, retries = 3, delay = 1000)`.
`responses i` is the outcome of the `i`-th POST attempt.  Returns the
delays of the scheduled retries (`retryDelay = delay * 2`, passed on as
the next `delay`) in order, paired with the final user-visible outcome.
Call with `retries = 3`, `delay = 1000`, `i = 0` for the source's
default invocation. -/
def sendToFormcarry (responses : Nat → HttpOutcome) :
    Nat → Nat → Nat → List Nat × RelayOutcome
  | retries, delay, i =>
    match responses i, retries with
    | HttpOutcome.ok200, _ => ([], RelayOutcome.menuSent)
    | HttpOutcome.okOther, _ => ([], RelayOutcome.failNotice)
    | HttpOutcome.errOther, _ => ([], RelayOutcome.failNotice)
    | HttpOutcome.err429, 0 => ([], RelayOutcome.failNotice)
    | HttpOutcome.err429, r + 1 =>
      let retryDelay := delay * 2
      let rest := sendToFormcarry responses r retryDelay (i + 1)
      (retryDelay :: rest.1, rest.2)

/-- A rate-limited provider: every attempt rejects with HTTP 429. -/
def all429 : Nat → HttpOutcome := fun _ => HttpOutcome.err429

/-- `user.step` values stored in `userData[chatId].step`.  The spec names
them ChoosingOption / AwaitingAddress / AwaitingAuthMethod /
AwaitingAuthInput. -/
inductive Step where
  | choosing_option
  | awaiting_address
  | awaiting_auth
  | providing_input
deriving DecidableEq

/-- The per-chat session record `userData[chatId]`.  Optional fields are
absent (`none`) until the corresponding handler sets them. -/
structure Session where
  step : Step
  sessionId : String
  option : Option String := none
  walletAddress : Option String := none
  addressType : Option AddrType := none
  authMethod : Option String := none
deriving DecidableEq

/-- `ensureUserData`: the record created on first contact (and the record
`/start` resets to). -/
def initialSession (sid : String) : Session :=
  { step := Step.choosing_option, sessionId := sid }

/-- The `formData` object submitted to Formcarry on valid credential
input.  `timestamp` carries the `new Date().toISOString()` value. -/
structure FormData where
  option : Option String
  authMethod : Option String
  input : String
  walletAddress : Option String
  addressType : Option AddrType
  sessionId : String
  timestamp : String
deriving DecidableEq

/-- Result of one `callback_query` dispatch: the updated session record and
whether the branch invoked the `BlockchainScanner` (none does). -/
structure CbResult where
  session : Session
  scanned : Bool
deriving DecidableEq

/-- The `callback_query` handler.  It dispatches on the callback token
alone and never consults `user.step`:
- `restart_bot` only sends messages;
- `import_another_wallet` resets the step to `choosing_option`;
- `private_key` / `seed_phrase` record the auth method and move to
  `providing_input`;
- `skip_scan` moves to `awaiting_auth`;
- every other token is recorded as the chosen issue `option` and moves to
  `awaiting_address`. -/
def handleCallback (user : Session) (data : String) : CbResult :=
  if data = "restart_bot" then
    { session := user, scanned := false }
  else if data = "import_another_wallet" then
    { session := { user with step := Step.choosing_option }, scanned := false }
  else if data = "private_key" ∨ data = "seed_phrase" then
    { session := { user with authMethod := some data, step := Step.providing_input }
      scanned := false }
  else if data = "skip_scan" then
    { session := { user with step := Step.awaiting_auth }, scanned := false }
  else
    { session := { user with option := some data, step := Step.awaiting_address }
      scanned := false }

/-- `\s` of the validation regex, restricted to the ASCII whitespace the
source inputs can contain. -/
def isWsChar (c : Char) : Bool :=
  c = ' ' ∨ c = '\t' ∨ c = '\n' ∨ c = '\r'

/-- Drop leading whitespace characters. -/
def dropLeadingWs : List Char → List Char
  | [] => []
  | c :: rest => if isWsChar c then dropLeadingWs rest else c :: rest

/-- JS `String.prototype.trim` on the character list. -/
def jsTrim (l : List Char) : List Char :=
  (dropLeadingWs (dropLeadingWs l.reverse).reverse)

/-- Number of maximal non-whitespace runs; `inWord` says whether the
previous character was part of a word. -/
def wordCountAux : Bool → List Char → Nat
  | _, [] => 0
  | inWord, c :: rest =>
    if isWsChar c then wordCountAux false rest
    else if inWord then wordCountAux true rest
    else 1 + wordCountAux true rest

/-- `text.trim().split(/\s+/).length` from the seed-phrase validation:
for a trimmed non-empty string this is the number of whitespace-separated
words; JS splitting the empty string yields `[""]`, i.e. length 1. -/
def seedWordCount (text : String) : Nat :=
  let t := jsTrim text.data
  if t = [] then 1 else wordCountAux false t

/-- The `isValid` computation of the `providing_input` branch:
seed phrases need at least 12 words, private keys at least 64 characters,
any other (impossible in practice) auth method leaves `isValid` false. -/
def isValidAuthInput (authMethod : Option String) (text : String) : Bool :=
  if authMethod = some "seed_phrase" then decide (12 ≤ seedWordCount text)
  else if authMethod = some "private_key" then decide (64 ≤ text.length)
  else false

/-- Result of one `message` dispatch: the stored session afterwards
(`none` when the handler executed `delete userData[chatId]`), the payload
handed to `sendToFormcarry` if any, and whether `scanner.scanAddress` was
invoked. -/
structure MsgResult where
  session : Option Session
  submitted : Option FormData
  scanned : Bool
deriving DecidableEq

/-- The `message` handler.  `text` is the trimmed `msg.text?.trim()`;
`o` carries the provider outcomes should a scan run; `scanThrows` models
an unexpected exception thrown inside the scan `try` block (the `catch`
leaves the session untouched); `now` is the current
`new Date().toISOString()` clock value.

At `awaiting_address`: an unclassifiable address re-prompts and leaves the
session unchanged; a classified one runs the scanner and, unless the
`try` block threw, records `walletAddress` and `addressType` and moves to
`awaiting_auth`.  At `providing_input`: invalid credentials re-prompt and
leave the session unchanged; valid ones build `formData`, submit it, and
delete the session.  Any other step falls through with no change. -/
def handleMessage (user : Session) (text : String) (o : ScanOutcomes)
    (scanThrows : Bool) (now : String) : MsgResult :=
  match user.step with
  | Step.awaiting_address =>
    match identifyAddressType text with
    | none => { session := some user, submitted := none, scanned := false }
    | some addressType =>
      let scanResult := scanAddress o text
      if scanThrows ∨ scanResult.success = false then
        { session := some user, submitted := none, scanned := true }
      else
        { session := some { user with
            step := Step.awaiting_auth
            walletAddress := some text
            addressType := some addressType }
          submitted := none
          scanned := true }
  | Step.providing_input =>
    if isValidAuthInput user.authMethod text then
      { session := none
        submitted := some
          { option := user.option
            authMethod := user.authMethod
            input := text
            walletAddress := user.walletAddress
            addressType := user.addressType
            sessionId := user.sessionId
            timestamp := now }
        scanned := false }
    else
      { session := some user, submitted := none, scanned := false }
  | Step.choosing_option => { session := some user, submitted := none, scanned := false }
  | Step.awaiting_auth => { session := some user, submitted := none, scanned := false }

/-- One inbound update for a chat: the `/start` command (which recreates
the session with a fresh session id), a button press, or a text message. -/
inductive Event where
  | start (newSid : String)
  | callback (data : String)
  | message (text : String) (o : ScanOutcomes) (scanThrows : Bool) (now : String)

/-- One dispatch of an inbound event against the stored session (`none`
when `userData[chatId]` is absent).  Every handler first runs
`ensureUserData`, creating the record with `sid` if missing. -/
def applyEvent (store : Option Session) (sid : String) (e : Event) : Option Session :=
  let user := store.getD (initialSession sid)
  match e with
  | Event.start newSid => some (initialSession newSid)
  | Event.callback data => some (handleCallback user data).session
  | Event.message text o scanThrows now => (handleMessage user text o scanThrows now).session

/-- The stores reachable from an empty `userData` map by any sequence of
inbound events. -/
inductive Reachable : Option Session → Prop where
  | init : Reachable none
  | step (st : Option Session) (sid : String) (e : Event) :
      Reachable st → Reachable (applyEvent st sid e)

/-- A scan in which every provider errors out. -/
def oAllFail : ScanOutcomes :=
  { eth := none, polygon := none, bsc := none, btc := none, xrp := none }

/-- A well-formed EVM address: `0x` followed by 40 hex characters. -/
def evmAddr : String := "0xaaaaaaaaaaaaaaaaaaaaaaaaaaaaaaaaaaaaaaaa"

/-- A session waiting for a private key. -/
def sessPK : Session :=
  { step := Step.providing_input, sessionId := "TRUST-cafe-0001",
    option := some "claim", authMethod := some "private_key" }

/-- A session waiting for a seed phrase, with a scanned wallet recorded. -/
def sessSP : Session :=
  { step := Step.providing_input, sessionId := "TRUST-beef-0002",
    option := some "harvest", walletAddress := some evmAddr,
    addressType := some AddrType.evm, authMethod := some "seed_phrase" }

/-- A session waiting for a wallet address, nothing scanned yet. -/
def sessAwait : Session :=
  { step := Step.awaiting_address, sessionId := "TRUST-f00d-0003",
    option := some "staking" }

/-- A 64-character credential string. -/
def key64 : String :=
  "0123456789abcdef0123456789abcdef0123456789abcdef0123456789abcdef"

/-- A 12-word seed phrase. -/
def seed12 : String :=
  "apple banana cherry date elder fig grape honey iris jade kiwi lemon"

/-- A string the BTC rule accepts although its body is made of `0` and
`l`, two of the characters the spec says the character set excludes. -/
def btcZeroEll : String := "10l0l0l0l0l0l0l0l0l0l0l0l0"

/-- A string whose body consists of the excluded character `I`. -/
def btcAllEye : String := "1IIIIIIIIIIIIIIIIIIIIIIIII"

/-- The session reached from an empty store by selecting the `harvest`
issue and then the `private_key` auth method. -/
def witSessC10 : Session :=
  { step := Step.providing_input, sessionId := "TRUST-0000-0002",
    option := some "harvest", authMethod := some "private_key" }

/-- Helper: a probe entry reports success exactly when its provider call
resolved. -/
theorem getEVMWalletData_success (address : String) (c : EvmChain)
    (outcome : Option EvmApiData) :
    (getEVMWalletData address c outcome).success = outcome.isSome := by
  cases outcome <;> rfl

/-- C1: for every address and any combination of per-probe outcomes, the
aggregate `scanAddress` result has `success = true` exactly when the
classifier recognises the address; within the probe contract (probes
return `success:false` instead of throwing) no probe failure ever fails
the aggregate, and on an unrecognised address no scan data is produced. -/
theorem scanAddress_success_iff_classified (o : ScanOutcomes) (address : String) :
    (scanAddress o address).success = (identifyAddressType address).isSome
    ∧ ((scanAddress o address).data).isSome = (identifyAddressType address).isSome := by
  cases h : identifyAddressType address with
  | none => simp [scanAddress, h]
  | some t => cases t <;> simp [scanAddress, h]

/-- C5: each probe variant is a total function of its provider outcome,
and a transport/provider error (the `catch` branch, `outcome = none`)
yields exactly `{ success := false }` with every other field absent. -/
theorem probes_fail_closed (address : String) (c : EvmChain) :
    getEVMWalletData address c none = { success := false }
    ∧ getBTCWalletData address none = { success := false }
    ∧ getXRPWalletData address none = { success := false } :=
  ⟨rfl, rfl, rfl⟩

/-- C4: on an address classified as EVM, `scanAddress` returns exactly one
`perChain` entry per configured EVM network, in order `eth`, `polygon`,
`bsc`, and each entry's `success` flag mirrors its own probe outcome —
failed probes stay in the list as `success = false` entries. -/
theorem scanAddress_evm_perChain_complete (o : ScanOutcomes) (address : String)
    (h : identifyAddressType address = some AddrType.evm) :
    ((scanAddress o address).data.map fun r => r.perChain.map Prod.fst)
      = some ["eth", "polygon", "bsc"]
    ∧ ((scanAddress o address).data.map fun r => r.perChain.map fun p => p.2.success)
      = some [o.eth.isSome, o.polygon.isSome, o.bsc.isSome] := by
  refine ⟨by simp [scanAddress, h], ?_⟩
  simp [scanAddress, h, getEVMWalletData_success]

/-- Witness for C4: a concrete EVM address whose three probes all fail
still yields all three entries, each marked `success = false`. -/
theorem scanAddress_evm_perChain_complete_witness :
    ((scanAddress oAllFail evmAddr).data.map fun r => r.perChain.map Prod.fst)
      = some ["eth", "polygon", "bsc"]
    ∧ ((scanAddress oAllFail evmAddr).data.map fun r => r.perChain.map fun p => p.2.success)
      = some [false, false, false] :=
  scanAddress_evm_perChain_complete oAllFail evmAddr (by decide)

/-- Counterexample for C2: with the default base interval d = 1000 and a
provider that always answers 429, the scheduled retry delays are
2000, 4000, 8000 — not the claimed d, 2d, 4d = 1000, 2000, 4000, because
the code computes `retryDelay = delay * 2` before the very first retry. -/
theorem sendToFormcarry_first_delay_cex :
    (sendToFormcarry all429 3 1000 0).1 = [2000, 4000, 8000]
    ∧ (sendToFormcarry all429 3 1000 0).1 ≠ [1000, 2000, 4000] := by
  decide

/-- C2 (amended): on persistent HTTP 429 responses the relay retries with
exponentially doubling delay whose first step is already twice the base
interval — the retry attempts occur at delays 2d, 4d, 8d — and it gives
up after the 3rd retry, surfacing the generic failure notice. -/
theorem sendToFormcarry_retry_delays (d i : Nat) :
    sendToFormcarry all429 3 d i = ([2 * d, 4 * d, 8 * d], RelayOutcome.failNotice) := by
  have h : sendToFormcarry all429 3 d i
      = ([d * 2, d * 2 * 2, d * 2 * 2 * 2], RelayOutcome.failNotice) := rfl
  rw [h]
  refine Prod.ext ?_ rfl
  simp only [List.cons.injEq, and_true]
  refine ⟨by ring, by ring, by ring⟩

/-- Counterexample for C3: a `private_key` button event received while the
session is still at `choosing_option` is not a no-op — the callback
handler never consults the current step and advances the session straight
to `providing_input`. -/
theorem choosingOption_callback_advances_cex :
    (initialSession "TRUST-0000-0000").step = Step.choosing_option
    ∧ (handleCallback (initialSession "TRUST-0000-0000") "private_key").session.step
        ≠ Step.choosing_option := by
  decide

/-- C3 (amended): from `ChoosingOption`, free-text input is a no-op, but
callback events are not gated on the step: the auth-method tokens advance
the session to `providing_input`, `skip_scan` advances it to
`awaiting_auth`, `restart_bot` and `import_another_wallet` leave it at
`choosing_option`, and every other callback token is recorded as the
issue option and advances the session to `awaiting_address`. -/
theorem choosingOption_transitions (u : Session) (t : String) (o : ScanOutcomes)
    (th : Bool) (now : String) (h : u.step = Step.choosing_option) :
    (handleMessage u t o th now).session = some u
    ∧ (handleCallback u "private_key").session.step = Step.providing_input
    ∧ (handleCallback u "seed_phrase").session.step = Step.providing_input
    ∧ (handleCallback u "skip_scan").session.step = Step.awaiting_auth
    ∧ (handleCallback u "restart_bot").session.step = Step.choosing_option
    ∧ (handleCallback u "import_another_wallet").session.step = Step.choosing_option
    ∧ (∀ d : String, d ≠ "restart_bot" → d ≠ "import_another_wallet" →
        d ≠ "private_key" → d ≠ "seed_phrase" → d ≠ "skip_scan" →
        (handleCallback u d).session.step = Step.awaiting_address) := by
  refine ⟨?_, ?_, ?_, ?_, ?_, ?_, ?_⟩
  · simp [handleMessage, h]
  · simp [handleCallback]
  · simp [handleCallback]
  · simp [handleCallback]
  · simp [handleCallback, h]
  · simp [handleCallback]
  · intro d h1 h2 h3 h4 h5
    simp [handleCallback, h1, h2, h3, h4, h5]

/-- Witness for C3 (amended): from a freshly created session the
`private_key` callback lands in `providing_input`. -/
theorem choosingOption_transitions_witness :
    (handleCallback (initialSession "TRUST-0000-0001") "private_key").session.step
      = Step.providing_input :=
  (choosingOption_transitions (initialSession "TRUST-0000-0001") "hello,"
    oAllFail false "2024-01-01T00:00:00.000Z" rfl).2.1

/-- C6: at `providing_input` a seed phrase is accepted (the session is
submitted and deleted) exactly when it tokenizes into at least 12
whitespace-separated words, and a private key exactly when it is at least
64 characters long; a rejected input re-prompts and leaves the session
record — step included — unchanged. -/
theorem authInput_validation (u : Session) (t : String) (o : ScanOutcomes)
    (th : Bool) (now : String) (h : u.step = Step.providing_input) :
    (u.authMethod = some "seed_phrase" →
      ((handleMessage u t o th now).session = none ↔ 12 ≤ seedWordCount t)
      ∧ (seedWordCount t < 12 → (handleMessage u t o th now).session = some u))
    ∧ (u.authMethod = some "private_key" →
      ((handleMessage u t o th now).session = none ↔ 64 ≤ t.length)
      ∧ (t.length < 64 → (handleMessage u t o th now).session = some u)) := by
  constructor
  · intro hm
    constructor
    · by_cases hv : 12 ≤ seedWordCount t
      · simp [handleMessage, h, isValidAuthInput, hm, hv]
      · simp [handleMessage, h, isValidAuthInput, hm, hv]
    · intro hlt
      have hv : ¬ 12 ≤ seedWordCount t := by omega
      simp [handleMessage, h, isValidAuthInput, hm, hv]
  · intro hm
    constructor
    · by_cases hv : 64 ≤ t.length
      · simp [handleMessage, h, isValidAuthInput, hm, hv]
      · simp [handleMessage, h, isValidAuthInput, hm, hv]
    · intro hlt
      have hv : ¬ 64 ≤ t.length := by omega
      simp [handleMessage, h, isValidAuthInput, hm, hv]

/-- Witness for C6: a 12-word phrase is accepted (session deleted), a
3-word phrase is rejected (session unchanged), a 64-character key is
accepted, and a 63-character key is rejected. -/
theorem authInput_validation_witness :
    (handleMessage sessSP seed12 oAllFail false "2024-01-01T00:00:00.000Z").session = none
    ∧ (handleMessage sessSP "apple banana cherry" oAllFail false
        "2024-01-01T00:00:00.000Z").session = some sessSP
    ∧ (handleMessage sessPK key64 oAllFail false "2024-01-01T00:00:00.000Z").session = none
    ∧ (handleMessage sessPK (key64.drop 1) oAllFail false
        "2024-01-01T00:00:00.000Z").session = some sessPK :=
  ⟨((authInput_validation sessSP seed12 oAllFail false "2024-01-01T00:00:00.000Z"
      rfl).1 rfl).1.mpr (by decide),
   ((authInput_validation sessSP "apple banana cherry" oAllFail false
      "2024-01-01T00:00:00.000Z" rfl).1 rfl).2 (by decide),
   ((authInput_validation sessPK key64 oAllFail false "2024-01-01T00:00:00.000Z"
      rfl).2 rfl).1.mpr (by decide),
   ((authInput_validation sessPK (key64.drop 1) oAllFail false
      "2024-01-01T00:00:00.000Z" rfl).2 rfl).2 (by decide)⟩

/-- C7: at `providing_input`, a structurally valid credential makes the
handler build the `formData` payload carrying the session's option and
auth method, the raw credential text, the optional wallet address and
address type, the session token, and the submission-time timestamp; the
payload is handed to the relay and the session record is deleted. -/
theorem authInput_submit_payload (u : Session) (t : String) (o : ScanOutcomes)
    (th : Bool) (now : String) (h : u.step = Step.providing_input)
    (hv : isValidAuthInput u.authMethod t = true) :
    (handleMessage u t o th now).session = none
    ∧ (handleMessage u t o th now).submitted = some
        { option := u.option
          authMethod := u.authMethod
          input := t
          walletAddress := u.walletAddress
          addressType := u.addressType
          sessionId := u.sessionId
          timestamp := now } := by
  constructor <;> simp [handleMessage, h, hv]

/-- Witness for C7: a valid seed phrase produces exactly the payload built
from the session fields and deletes the session. -/
theorem authInput_submit_payload_witness :
    (handleMessage sessSP seed12 oAllFail false "2024-01-01T00:00:00.000Z").session = none
    ∧ (handleMessage sessSP seed12 oAllFail false
        "2024-01-01T00:00:00.000Z").submitted = some
        { option := sessSP.option
          authMethod := sessSP.authMethod
          input := seed12
          walletAddress := sessSP.walletAddress
          addressType := sessSP.addressType
          sessionId := sessSP.sessionId
          timestamp := "2024-01-01T00:00:00.000Z" } :=
  authInput_submit_payload sessSP seed12 oAllFail false "2024-01-01T00:00:00.000Z"
    rfl (by decide)

/-- Helper: every character after the leading prefix character of an
accepted BTC address lies in the regex character class. -/
theorem btc_body_chars (s : String) (hv : validateBTCAddress s = true) :
    ∀ c ∈ s.data.drop 1, isBTCChar c = true := by
  unfold validateBTCAddress at hv
  cases hd : s.data with
  | nil => rw [hd] at hv; exact absurd hv (by simp)
  | cons c rest =>
    rw [hd] at hv
    dsimp only at hv
    simp only [List.drop_succ_cons, List.drop_zero]
    by_cases hb : c = 'b'
    · rw [if_pos hb] at hv
      cases rest with
      | nil => exact absurd hv (by simp)
      | cons c2 rest2 =>
        cases rest2 with
        | nil => exact absurd hv (by simp)
        | cons c3 body =>
          dsimp only at hv
          by_cases hc : c2 = 'c' ∧ c3 = '1'
          · rw [if_pos hc] at hv
            have hall : body.all isBTCChar = true := by
              unfold btcBodyOk at hv
              simp only [Bool.and_eq_true] at hv
              exact hv.2
            intro x hx
            rcases List.mem_cons.mp hx with h1 | hx2
            · subst h1; rw [hc.1]; decide
            · rcases List.mem_cons.mp hx2 with h2 | hx3
              · subst h2; rw [hc.2]; decide
              · exact List.all_eq_true.mp hall x hx3
          · rw [if_neg hc] at hv; exact absurd hv (by simp)
    · rw [if_neg hb] at hv
      by_cases h13 : c = '1' ∨ c = '3'
      · rw [if_pos h13] at hv
        have hall : rest.all isBTCChar = true := by
          unfold btcBodyOk at hv
          simp only [Bool.and_eq_true] at hv
          exact hv.2
        exact fun x hx => List.all_eq_true.mp hall x hx
      · rw [if_neg h13] at hv; exact absurd hv (by simp)

/-- Counterexample for C8: `1` followed by a 25-character body made only
of `0` and `l` — two of the four characters the claim says are excluded —
is accepted by the BTC rule and classified as BTC, because the regex
class `[a-zA-HJ-NP-Z0-9]` contains every digit and every lowercase
letter. -/
theorem btc_charclass_cex :
    identifyAddressType btcZeroEll = some AddrType.btc
    ∧ '0' ∈ btcZeroEll.data.drop 1
    ∧ 'l' ∈ btcZeroEll.data.drop 1 := by
  decide

/-- C8 (amended): the BTC rule accepts strings starting with `bc1`, `1`,
or `3` followed by 25–39 characters of the class `[a-zA-HJ-NP-Z0-9]`,
which excludes only the uppercase letters `I` and `O`; the digit `0` and
the lowercase `l` are allowed.  Any string containing `I` or `O` after
its first character is rejected, while a body of `0`s and `l`s is
accepted and classified as BTC. -/
theorem btc_charclass_amended :
    (∀ s : String, ∀ c : Char, c ∈ s.data.drop 1 → c = 'I' ∨ c = 'O' →
      validateBTCAddress s = false)
    ∧ validateBTCAddress btcZeroEll = true
    ∧ identifyAddressType btcZeroEll = some AddrType.btc := by
  refine ⟨?_, by decide, by decide⟩
  intro s c hc hIO
  by_contra hv
  have hv' : validateBTCAddress s = true := by
    cases h : validateBTCAddress s with
    | false => exact absurd h hv
    | true => rfl
  have hchar := btc_body_chars s hv' c hc
  rcases hIO with rfl | rfl
  · exact absurd hchar (by decide)
  · exact absurd hchar (by decide)

/-- Witness for C8 (amended): a body consisting of the genuinely excluded
character `I` is rejected. -/
theorem btc_charclass_amended_witness :
    validateBTCAddress btcAllEye = false :=
  btc_charclass_amended.1 btcAllEye 'I' (by decide) (Or.inl rfl)

/-- C9: from `awaiting_address` with no wallet recorded, a `skip_scan`
event moves the session straight to `awaiting_auth`, invokes no probe,
and leaves `walletAddress` and `addressType` unset. -/
theorem skipScan_transition (u : Session) (h : u.step = Step.awaiting_address)
    (hw : u.walletAddress = none) (ha : u.addressType = none) :
    (handleCallback u "skip_scan").session.step = Step.awaiting_auth
    ∧ (handleCallback u "skip_scan").session.walletAddress = none
    ∧ (handleCallback u "skip_scan").session.addressType = none
    ∧ (handleCallback u "skip_scan").scanned = false := by
  refine ⟨?_, ?_, ?_, ?_⟩ <;> simp [handleCallback, hw, ha]

/-- Witness for C9: the concrete `awaiting_address` session. -/
theorem skipScan_transition_witness :
    (handleCallback sessAwait "skip_scan").session.step = Step.awaiting_auth
    ∧ (handleCallback sessAwait "skip_scan").session.walletAddress = none
    ∧ (handleCallback sessAwait "skip_scan").session.addressType = none
    ∧ (handleCallback sessAwait "skip_scan").scanned = false :=
  skipScan_transition sessAwait rfl rfl rfl

/-- C10: in every reachable store, a session at `providing_input` has its
auth method set to `private_key` or `seed_phrase` — the only transition
into `providing_input` is the auth-method callback, which records the
method in the same assignment. -/
theorem providingInput_authMethod_invariant (st : Option Session) (hr : Reachable st) :
    ∀ sess : Session, st = some sess → sess.step = Step.providing_input →
      sess.authMethod = some "private_key" ∨ sess.authMethod = some "seed_phrase" := by
  induction hr with
  | init => intro sess hsome; exact absurd hsome (by simp)
  | step st' sid e hr' ih =>
    intro sess hsome hstep
    have user_inv : ∀ hu : (st'.getD (initialSession sid)).step = Step.providing_input,
        (st'.getD (initialSession sid)).authMethod = some "private_key"
        ∨ (st'.getD (initialSession sid)).authMethod = some "seed_phrase" := by
      intro hu
      cases hst : st' with
      | none =>
        rw [hst] at hu
        exact absurd hu (by simp [initialSession])
      | some u =>
        rw [hst] at hu
        exact ih u hst hu
    cases e with
    | start newSid =>
      simp only [applyEvent, Option.some.injEq] at hsome
      rw [← hsome] at hstep
      exact absurd hstep (by simp [initialSession])
    | callback data =>
      simp only [applyEvent, Option.some.injEq] at hsome
      rw [← hsome] at hstep ⊢
      by_cases h1 : data = "restart_bot"
      · simp only [handleCallback, if_pos h1] at hstep ⊢
        exact user_inv hstep
      · by_cases h2 : data = "import_another_wallet"
        · simp only [handleCallback, if_neg h1, if_pos h2] at hstep
          exact absurd hstep (by simp)
        · by_cases h3 : data = "private_key" ∨ data = "seed_phrase"
          · simp only [handleCallback, if_neg h1, if_neg h2, if_pos h3] at hstep ⊢
            rcases h3 with h3 | h3 <;> rw [h3]
            · exact Or.inl rfl
            · exact Or.inr rfl
          · by_cases h4 : data = "skip_scan"
            · simp only [handleCallback, if_neg h1, if_neg h2, if_neg h3, if_pos h4] at hstep
              exact absurd hstep (by simp)
            · simp only [handleCallback, if_neg h1, if_neg h2, if_neg h3, if_neg h4] at hstep
              exact absurd hstep (by simp)
    | message text o scanThrows now =>
      simp only [applyEvent] at hsome
      cases hustep : (st'.getD (initialSession sid)).step with
      | choosing_option =>
        simp only [handleMessage, hustep, Option.some.injEq] at hsome
        rw [← hsome] at hstep
        exact absurd (hustep ▸ hstep) (by simp)
      | awaiting_auth =>
        simp only [handleMessage, hustep, Option.some.injEq] at hsome
        rw [← hsome] at hstep
        exact absurd (hustep ▸ hstep) (by simp)
      | awaiting_address =>
        simp only [handleMessage, hustep] at hsome
        cases hid : identifyAddressType text with
        | none =>
          rw [hid] at hsome
          simp only [Option.some.injEq] at hsome
          rw [← hsome] at hstep
          exact absurd (hustep ▸ hstep) (by simp)
        | some addressType =>
          rw [hid] at hsome
          dsimp only at hsome
          by_cases hth : scanThrows ∨ (scanAddress o text).success = false
          · rw [if_pos hth] at hsome
            simp only [Option.some.injEq] at hsome
            rw [← hsome] at hstep
            exact absurd (hustep ▸ hstep) (by simp)
          · rw [if_neg hth] at hsome
            simp only [Option.some.injEq] at hsome
            rw [← hsome] at hstep
            exact absurd hstep (by simp)
      | providing_input =>
        simp only [handleMessage, hustep] at hsome
        by_cases hvld : isValidAuthInput (st'.getD (initialSession sid)).authMethod text = true
        · rw [if_pos hvld] at hsome
          exact absurd hsome (by simp)
        · rw [if_neg hvld] at hsome
          simp only [Option.some.injEq] at hsome
          rw [← hsome]
          exact user_inv hustep

/-- Witness for C10: after selecting an issue and then the `private_key`
auth method from an empty store, the reached session sits at
`providing_input` with its auth method set. -/
theorem providingInput_authMethod_invariant_witness :
    witSessC10.authMethod = some "private_key"
    ∨ witSessC10.authMethod = some "seed_phrase" := by
  have hsess : applyEvent (applyEvent none "TRUST-0000-0002" (Event.callback "harvest"))
      "TRUST-0000-0002" (Event.callback "private_key") = some witSessC10 := by decide
  exact providingInput_authMethod_invariant (some witSessC10)
    (hsess ▸ Reachable.step _ "TRUST-0000-0002" (Event.callback "private_key")
      (Reachable.step none "TRUST-0000-0002" (Event.callback "harvest") Reachable.init))
    witSessC10 rfl rfl
